import Mathlib

/-!
Verification of the cafe-apps order-management backend.

The development shallowly embeds the transaction engine of the repository
(`src/controllers/transactionController.js`, `src/utils/reformTransaction.js`,
`src/controllers/productController.js`, `prisma/schema.prisma`) in Lean.
JavaScript numbers are modelled as exact rationals, the document store as a
record of lists, store exceptions as `Except`, and a JavaScript runtime
error (dereferencing a missing record) as `Option.none`.
-/

namespace CafeApps

/-- Catalog entry, following model `Product` of `prisma/schema.prisma`:
id, name, image, category, description (strings) and a price (`Float`,
modelled as an exact rational). -/
structure Product where
  id : String
  name : String
  image : String
  category : String
  description : String
  price : ℚ
deriving DecidableEq

/-- Persisted order header, following model `Transaction` of
`prisma/schema.prisma`: `total Int` and `customerTableNumber Int` are
integer columns; the status is the stored enum value, kept as a string as
the controller manipulates it; the optional payment fields are
`Option String`. -/
structure Transaction where
  id : String
  total : ℤ
  status : String
  customerName : String
  customerEmail : String
  customerPhone : String
  customerTableNumber : ℤ
  snapToken : Option String
  snapRedirectUrl : Option String
  paymentMethod : Option String
deriving DecidableEq

/-- Persisted order line, following model `TransactionsItem` of
`prisma/schema.prisma`: its own id, the owning transaction id, the
referenced product id, and the snapshotted product name, price and
quantity. -/
structure TransactionsItem where
  id : String
  transactionId : String
  productId : String
  productName : String
  price : ℚ
  quantity : ℕ
deriving DecidableEq

/-- The durable store state: the three collections the transaction engine
touches. -/
structure Store where
  products : List Product
  transactions : List Transaction
  transactionsItems : List TransactionsItem
deriving DecidableEq

/-- One entry of the `products` array of a create request
(`{ id, quantity }`). -/
structure ReqProduct where
  id : String
  quantity : ℕ
deriving DecidableEq

/-- Body of `POST /transaction` as destructured by `createTransaction`;
the table number is the integer value the schema column stores. -/
structure CreateReq where
  products : List ReqProduct
  customerName : String
  customerEmail : String
  customerPhone : String
  customerTableNumber : ℤ
deriving DecidableEq

/-- A catalog product with the `quantity` field that `createTransaction`
attaches in place (`product.quantity = productFromRequest.quantity`). -/
structure ResolvedProduct where
  id : String
  name : String
  image : String
  category : String
  description : String
  price : ℚ
  quantity : ℕ
deriving DecidableEq

/-- The `data` object of the success response of `createTransaction`,
field for field as built by `res.json` (note: it has no `total` field). -/
structure CreateData where
  id : String
  status : String
  customerName : String
  customerEmail : String
  customerPhone : String
  customerTableNumber : ℤ
  products : List ResolvedProduct
  snapToken : Option String
  snapRedirectUrl : Option String
deriving DecidableEq

/-- The success envelope of `createTransaction`
(`{ status, statusCode, msg, data }`). -/
structure CreateBody where
  status : String
  statusCode : ℕ
  msg : String
  data : CreateData
deriving DecidableEq

/-- Outcome of `createTransaction`: the 404 branch, an uncaught storage
exception, or the success envelope. -/
inductive CreateResult where
  | notFound
  | storeError
  | success (body : CreateBody)
deriving DecidableEq

/-- HTTP status actually sent on the wire for each outcome: the 404 branch
calls `res.status(404)`; an uncaught exception is rendered by the terminal
error handler as 500; the success branch calls `res.json` with no
`res.status`, which sends HTTP 200. -/
def CreateResult.httpStatus : CreateResult → ℕ
  | CreateResult.notFound => 404
  | CreateResult.storeError => 500
  | CreateResult.success _ => 200

/-- Initial order status, the `PENDING` constant of `utils/constants.js`
(one of the `payment_status` enum values of the schema). -/
def PENDING : String := "PENDING"

/-- Quantity attached to a resolved product:
`products.find(p => p.id === product.id).quantity` — the quantity of the
first request entry with the given id.  The resolved products all come
from the request, so the default branch is unreachable there. -/
def requestedQuantity (reqProducts : List ReqProduct) (pid : String) : ℕ :=
  ((reqProducts.find? (fun r => r.id = pid)).map ReqProduct.quantity).getD 0

/-- The `productsFromDB` array after the mutating `forEach` of
`createTransaction`: the catalog records whose id occurs among the
requested ids (`prisma.product.findMany({ where: { id: { in: ... } } })`),
each with the attached quantity of the first matching request entry
(`products.find(p => p.id === product.id).quantity`). -/
def resolvedProducts (st : Store) (req : CreateReq) : List ResolvedProduct :=
  (st.products.filter (fun p => p.id ∈ req.products.map ReqProduct.id)).map (fun p =>
    { id := p.id, name := p.name, image := p.image, category := p.category,
      description := p.description, price := p.price,
      quantity := requestedQuantity req.products p.id })

/-- The `gross_amount` reduce of `createTransaction` over the resolved
products, at the float (here: exact rational) precision of the
computation. -/
def grossAmount (st : Store) (req : CreateReq) : ℚ :=
  (resolvedProducts st req).foldl (fun acc p => acc + (p.quantity : ℚ) * p.price) 0

/-- The order header row `prisma.transaction.create` inserts when it
accepts the write: the `total Int` column holds the numerator of the
gross amount, which the store only accepts when the gross amount is
integral (denominator 1). -/
def createdHeader (st : Store) (req : CreateReq) (txId : String) : Transaction :=
  { id := txId, total := (grossAmount st req).num, status := PENDING,
    customerName := req.customerName, customerEmail := req.customerEmail,
    customerPhone := req.customerPhone,
    customerTableNumber := req.customerTableNumber,
    snapToken := none, snapRedirectUrl := none, paymentMethod := none }

/-- The line-item rows `prisma.transactionsItem.createMany` inserts on the
success path, one per resolved product, each carrying a fresh item id and
the snapshot of product name, price and quantity. -/
def createdItems (st : Store) (req : CreateReq) (txId : String)
    (itemId : ℕ → String) : List TransactionsItem :=
  (resolvedProducts st req).enum.map (fun e =>
    { id := itemId e.1, transactionId := txId, productId := e.2.id,
      productName := e.2.name, price := e.2.price, quantity := e.2.quantity })

/-- The success envelope `createTransaction` sends via `res.json`,
field for field (note: its `data` object has no `total` field). -/
def createdBody (st : Store) (req : CreateReq) (txId : String) : CreateBody :=
  { status := "Created", statusCode := 201,
    msg := "Successfully created transactions",
    data := { id := txId, status := PENDING,
              customerName := req.customerName,
              customerEmail := req.customerEmail,
              customerPhone := req.customerPhone,
              customerTableNumber := req.customerTableNumber,
              products := resolvedProducts st req,
              snapToken := none, snapRedirectUrl := none } }

/-- `createTransaction` of `src/controllers/transactionController.js`.
`txId` stands for the random `TRX-<nanoid(4)>-<nanoid(8)>` draw and
`itemId n` for the n-th `TRX-ITEM-<nanoid(10)>` draw.  The second branch
models the validation `prisma.transaction.create` performs against
`prisma/schema.prisma` (the same client-side schema validation
`prismaTransactionUpdate` performs for the status enum): the `total`
column is `Int`, so a non-integral `gross_amount` makes the create
reject; the handler does not catch it, nothing is persisted and the
error propagates.  `itemsFail` injects a storage failure of the later
`prisma.transactionsItem.createMany`, also uncaught; the preceding
header insert is then not rolled back (the two writes are not wrapped in
a store transaction). -/
def createTransaction (st : Store) (req : CreateReq) (txId : String)
    (itemId : ℕ → String) (itemsFail : Bool) : Store × CreateResult :=
  let productsFromDB :=
    st.products.filter (fun p => p.id ∈ req.products.map ReqProduct.id)
  if productsFromDB.length = 0 then
    (st, CreateResult.notFound)
  else
    let gross_amount := grossAmount st req
    if gross_amount.den = 1 then
      let st1 : Store :=
        { st with transactions := st.transactions ++ [createdHeader st req txId] }
      if itemsFail then
        (st1, CreateResult.storeError)
      else
        ({ st1 with transactionsItems :=
            st1.transactionsItems ++ createdItems st req txId itemId },
         CreateResult.success (createdBody st req txId))
    else
      (st, CreateResult.storeError)

/-- The `payment_status` enum of `prisma/schema.prisma`: the values the
persisted schema admits for the `status` field of a transaction. -/
def payment_status : List String := ["PENDING", "PAID", "CANCELED"]

/-- Failure modes of `prisma.transaction.update`. -/
inductive UpdateErr where
  | recordNotFound
  | invalidStatusValue
deriving DecidableEq

/-- `prisma.transaction.update({ where: { id }, data: { status,
paymentMethod: null } })`.  The primitive rejects a status outside the
`payment_status` enum of the schema, and rejects an id matching no
record; otherwise it overwrites exactly the two given fields of the
matching record and resolves with the updated record. -/
def prismaTransactionUpdate (st : Store) (id status : String) :
    Except UpdateErr (Store × Transaction) :=
  if status ∈ payment_status then
    match st.transactions.find? (fun t => t.id = id) with
    | none => Except.error UpdateErr.recordNotFound
    | some t =>
        let t1 : Transaction := { t with status := status, paymentMethod := none }
        Except.ok
          ({ st with transactions :=
              st.transactions.map (fun u => if u.id = id then t1 else u) }, t1)
  else
    Except.error UpdateErr.invalidStatusValue

/-- Outcome of `updateTransactionStatus`: the 404 body of the handler, an
uncaught storage exception (rendered 500 by the terminal error handler),
or the `res.json` acceptance envelope carrying the updated record. -/
inductive UpdateResult where
  | notFoundResp
  | errorPropagated (e : UpdateErr)
  | accepted (t : Transaction)
deriving DecidableEq

/-- `updateTransactionStatus` of
`src/controllers/transactionController.js`.  The handler has no
try/catch, so a rejected update propagates out of it; on success the
resolved value is the record itself, never null, so the
`if (!transaction)` guard of the source can never fire and the handler
answers with the acceptance envelope. -/
def updateTransactionStatus (st : Store) (id status : String) :
    Store × UpdateResult :=
  match prismaTransactionUpdate st id status with
  | Except.error e => (st, UpdateResult.errorPropagated e)
  | Except.ok (st1, t) => (st1, UpdateResult.accepted t)

/-- The five fields of a product selected by the `include` of the read
path (`select: { id, name, price, image, category }`). -/
structure ProductSel where
  id : String
  name : String
  price : ℚ
  image : String
  category : String
deriving DecidableEq

/-- Apply the read-path `select` to a catalog product. -/
def Product.toSel (p : Product) : ProductSel :=
  { id := p.id, name := p.name, price := p.price,
    image := p.image, category := p.category }

/-- Current catalog record referenced by a line item (the join performed
by `include: { product: ... }`); `none` when the referenced product no
longer exists. -/
def currentProduct (catalog : List Product) (pid : String) : Option Product :=
  catalog.find? (fun p => p.id = pid)

/-- A line item as fetched by the read path: the stored snapshot fields
together with the joined current product (selected fields), `none` when
the reference dangles. -/
structure FetchedItem where
  id : String
  transactionId : String
  productId : String
  productName : String
  price : ℚ
  quantity : ℕ
  product : Option ProductSel
deriving DecidableEq

/-- A transaction as fetched by the read path
(`include: { transactionsItems: { include: { product } } }`). -/
structure FetchedTransaction where
  id : String
  total : ℤ
  status : String
  customerName : String
  customerEmail : String
  customerPhone : String
  customerTableNumber : ℤ
  snapToken : Option String
  snapRedirectUrl : Option String
  paymentMethod : Option String
  transactionsItems : List FetchedItem
deriving DecidableEq

/-- Join one stored line item with its current product. -/
def fetchItem (catalog : List Product) (it : TransactionsItem) : FetchedItem :=
  { id := it.id, transactionId := it.transactionId, productId := it.productId,
    productName := it.productName, price := it.price, quantity := it.quantity,
    product := (currentProduct catalog it.productId).map Product.toSel }

/-- Fetch a stored transaction with its items and their joined current
products, as the read path does. -/
def fetchTransaction (st : Store) (t : Transaction) : FetchedTransaction :=
  { id := t.id, total := t.total, status := t.status,
    customerName := t.customerName, customerEmail := t.customerEmail,
    customerPhone := t.customerPhone,
    customerTableNumber := t.customerTableNumber,
    snapToken := t.snapToken, snapRedirectUrl := t.snapRedirectUrl,
    paymentMethod := t.paymentMethod,
    transactionsItems :=
      (st.transactionsItems.filter (fun it => it.transactionId = t.id)).map
        (fetchItem st.products) }

/-- One entry of the `products` list produced by `reformTransaction`. -/
structure ReformedProduct where
  id : String
  name : String
  price : ℚ
  quantity : ℕ
  image : String
deriving DecidableEq

/-- Output shape of `reformTransaction`. -/
structure ReformedTransaction where
  id : String
  total : ℤ
  status : String
  customerName : String
  customerEmail : String
  customerPhone : String
  customerTableNumber : ℤ
  snapToken : Option String
  snapRedirectUrl : Option String
  paymentMethod : Option String
  products : List ReformedProduct
deriving DecidableEq

/-- The item mapping of `reformTransaction`: id, name, price, quantity
from the stored item, image from `transactionItem.product.image`.  The
dereference has no null guard in the source, so a dangling product
reference raises (`none`); the map raises as soon as one item does. -/
def reformProducts : List FetchedItem → Option (List ReformedProduct)
  | [] => some []
  | it :: rest =>
    match it.product with
    | none => none
    | some pr =>
      match reformProducts rest with
      | none => none
      | some tail =>
          some ({ id := it.productId, name := it.productName,
                  price := it.price, quantity := it.quantity,
                  image := pr.image } :: tail)

/-- `reformTransaction` of `src/utils/reformTransaction.js`: top-level
fields pass through unchanged; `products` is the reshaped item list.
`none` models the uncaught runtime error on a dangling product
reference. -/
def reformTransaction (t : FetchedTransaction) : Option ReformedTransaction :=
  match reformProducts t.transactionsItems with
  | none => none
  | some prods =>
      some { id := t.id, total := t.total, status := t.status,
             customerName := t.customerName, customerEmail := t.customerEmail,
             customerPhone := t.customerPhone,
             customerTableNumber := t.customerTableNumber,
             snapToken := t.snapToken, snapRedirectUrl := t.snapRedirectUrl,
             paymentMethod := t.paymentMethod, products := prods }

/-- Outcome of `getTransactionById`: 404 body, uncaught reshape error
(rendered 500), or the reshaped order. -/
inductive GetByIdResult where
  | notFound
  | serverError
  | ok (r : ReformedTransaction)
deriving DecidableEq

/-- `getTransactionById` of `src/controllers/transactionController.js`:
find the transaction (404 when absent), fetch it with items and joined
products, reshape it.  A reshape error escapes the handler. -/
def getTransactionById (st : Store) (id : String) : GetByIdResult :=
  match st.transactions.find? (fun t => t.id = id) with
  | none => GetByIdResult.notFound
  | some t =>
    match reformTransaction (fetchTransaction st t) with
    | none => GetByIdResult.serverError
    | some r => GetByIdResult.ok r

/-- Reshape every fetched transaction of a list; raises (`none`) as soon
as one of them does, as the `transactions.map(reformTransaction)` of the
source would. -/
def reformAll (st : Store) : List Transaction → Option (List ReformedTransaction)
  | [] => some []
  | t :: rest =>
    match reformTransaction (fetchTransaction st t) with
    | none => none
    | some r =>
      match reformAll st rest with
      | none => none
      | some tail => some (r :: tail)

/-- `getTransactions` of `src/controllers/transactionController.js`: an
optional exact-match status filter, then reshape each result.  `none`
models the uncaught reshape error (rendered 500). -/
def getTransactions (st : Store) (statusFilter : Option String) :
    Option (List ReformedTransaction) :=
  let whereMatch := fun (t : Transaction) =>
    match statusFilter with
    | none => true
    | some s => decide (t.status = s)
  reformAll st (st.transactions.filter whereMatch)

/-- `deleteProductById` of `src/controllers/productController.js`
(`prisma.product.delete`): rejects when no product has the id, otherwise
removes the catalog record and resolves with it.  Nothing cascades: line
items referencing the product are left in place. -/
def deleteProductById (st : Store) (pid : String) :
    Except Unit (Store × Product) :=
  match st.products.find? (fun p => p.id = pid) with
  | none => Except.error ()
  | some p =>
      Except.ok
        ({ st with products := st.products.filter (fun q => q.id ≠ pid) }, p)

theorem createTransaction_success_eq (st : Store) (req : CreateReq)
    (txId : String) (itemId : ℕ → String)
    (h : (st.products.filter
        (fun p => p.id ∈ req.products.map ReqProduct.id)).length ≠ 0)
    (hden : (grossAmount st req).den = 1) :
    createTransaction st req txId itemId false =
      ({ st with
          transactions := st.transactions ++ [createdHeader st req txId],
          transactionsItems :=
            st.transactionsItems ++ createdItems st req txId itemId },
       CreateResult.success (createdBody st req txId)) := by
  simp only [createTransaction]
  rw [if_neg h, if_pos hden]
  rfl

theorem createTransaction_notFound_eq (st : Store) (req : CreateReq)
    (txId : String) (itemId : ℕ → String) (itemsFail : Bool)
    (h : (st.products.filter
        (fun p => p.id ∈ req.products.map ReqProduct.id)).length = 0) :
    createTransaction st req txId itemId itemsFail =
      (st, CreateResult.notFound) := by
  simp only [createTransaction]
  rw [if_pos h]

theorem createTransaction_storeError_eq (st : Store) (req : CreateReq)
    (txId : String) (itemId : ℕ → String)
    (h : (st.products.filter
        (fun p => p.id ∈ req.products.map ReqProduct.id)).length ≠ 0)
    (hden : (grossAmount st req).den = 1) :
    createTransaction st req txId itemId true =
      ({ st with transactions := st.transactions ++ [createdHeader st req txId] },
       CreateResult.storeError) := by
  simp only [createTransaction]
  rw [if_neg h, if_pos hden]
  rfl

theorem createTransaction_nonintegral_eq (st : Store) (req : CreateReq)
    (txId : String) (itemId : ℕ → String) (itemsFail : Bool)
    (h : (st.products.filter
        (fun p => p.id ∈ req.products.map ReqProduct.id)).length ≠ 0)
    (hden : ¬ (grossAmount st req).den = 1) :
    createTransaction st req txId itemId itemsFail =
      (st, CreateResult.storeError) := by
  simp only [createTransaction]
  rw [if_neg h, if_neg hden]

theorem foldl_add_eq_add_sum {α : Type} (f : α → ℚ) (l : List α) (init : ℚ) :
    l.foldl (fun acc a => acc + f a) init = init + (l.map f).sum := by
  induction l generalizing init with
  | nil => simp
  | cons a l ih => simp [List.foldl_cons, ih, add_assoc]

theorem grossAmount_eq_sum (st : Store) (req : CreateReq) :
    grossAmount st req
      = ((st.products.filter (fun p => p.id ∈ req.products.map ReqProduct.id)).map
          (fun p => p.price * (requestedQuantity req.products p.id : ℚ))).sum := by
  unfold grossAmount resolvedProducts
  rw [List.foldl_map, foldl_add_eq_add_sum, zero_add]
  congr 1
  exact List.map_congr_left (fun p _ => mul_comm _ _)

theorem createdItems_length (st : Store) (req : CreateReq) (txId : String)
    (itemId : ℕ → String) :
    (createdItems st req txId itemId).length
      = (st.products.filter
          (fun p => p.id ∈ req.products.map ReqProduct.id)).length := by
  simp [createdItems, resolvedProducts, List.enum_length]

theorem mem_createdItems_transactionId (st : Store) (req : CreateReq)
    (txId : String) (itemId : ℕ → String) :
    ∀ it ∈ createdItems st req txId itemId, it.transactionId = txId := by
  intro it hit
  simp only [createdItems, List.mem_map] at hit
  obtain ⟨e, _, rfl⟩ := hit
  rfl

theorem length_filter_eq_length_dedup_filter (catalog : List Product)
    (ids : List String) (hnodup : (catalog.map Product.id).Nodup) :
    (catalog.filter (fun p => p.id ∈ ids)).length
      = (ids.dedup.filter (fun i => i ∈ catalog.map Product.id)).length := by
  have h1 : (catalog.filter (fun p => p.id ∈ ids)).length
      = ((catalog.map Product.id).filter (fun i => i ∈ ids)).length := by
    rw [List.filter_map, List.length_map]
    rfl
  rw [h1]
  have d1 : ((catalog.map Product.id).filter (fun i => i ∈ ids)).Nodup :=
    hnodup.filter _
  have d2 : (ids.dedup.filter (fun i => i ∈ catalog.map Product.id)).Nodup :=
    (List.nodup_dedup ids).filter _
  refine List.Perm.length_eq ?_
  rw [List.perm_ext_iff_of_nodup d1 d2]
  intro a
  simp only [List.mem_filter, List.mem_dedup, decide_eq_true_eq]
  exact and_comm

theorem resolved_nonempty_of_some_id (st : Store) (req : CreateReq)
    (hres : ∃ rp ∈ req.products, rp.id ∈ st.products.map Product.id) :
    (st.products.filter
        (fun p => p.id ∈ req.products.map ReqProduct.id)).length ≠ 0 := by
  obtain ⟨rp, hrp, hid⟩ := hres
  obtain ⟨p, hp, hpid⟩ := List.mem_map.mp hid
  have hmem : p ∈ st.products.filter
      (fun p => p.id ∈ req.products.map ReqProduct.id) := by
    refine List.mem_filter.mpr ⟨hp, ?_⟩
    simp only [decide_eq_true_eq, hpid]
    exact List.mem_map.mpr ⟨rp, hrp, rfl⟩
  intro hlen
  rw [List.length_eq_zero.mp hlen] at hmem
  exact absurd hmem (List.not_mem_nil p)

theorem new_items_filter_eq (st : Store) (req : CreateReq) (txId : String)
    (itemId : ℕ → String)
    (hfresh : ∀ it ∈ st.transactionsItems, it.transactionId ≠ txId) :
    (st.transactionsItems ++ createdItems st req txId itemId).filter
        (fun it => it.transactionId = txId)
      = createdItems st req txId itemId := by
  rw [List.filter_append]
  have hold : st.transactionsItems.filter (fun it => it.transactionId = txId)
      = [] := by
    rw [List.filter_eq_nil_iff]
    intro it hit
    simp only [decide_eq_true_eq]
    exact hfresh it hit
  have hnew : (createdItems st req txId itemId).filter
      (fun it => it.transactionId = txId) = createdItems st req txId itemId := by
    rw [List.filter_eq_self]
    intro it hit
    simp only [decide_eq_true_eq]
    exact mem_createdItems_transactionId st req txId itemId it hit
  rw [hold, hnew, List.nil_append]

theorem new_items_filter_length (st : Store) (req : CreateReq) (txId : String)
    (itemId : ℕ → String)
    (hfresh : ∀ it ∈ st.transactionsItems, it.transactionId ≠ txId) :
    ((st.transactionsItems ++ createdItems st req txId itemId).filter
        (fun it => it.transactionId = txId)).length
      = (createdItems st req txId itemId).length := by
  rw [new_items_filter_eq st req txId itemId hfresh]

theorem createdItems_map_productId (st : Store) (req : CreateReq)
    (txId : String) (itemId : ℕ → String) :
    (createdItems st req txId itemId).map TransactionsItem.productId
      = (st.products.filter
          (fun p => p.id ∈ req.products.map ReqProduct.id)).map Product.id := by
  unfold createdItems
  rw [List.map_map]
  have h1 : (TransactionsItem.productId ∘ fun e : ℕ × ResolvedProduct =>
      ({ id := itemId e.1, transactionId := txId, productId := e.2.id,
         productName := e.2.name, price := e.2.price,
         quantity := e.2.quantity } : TransactionsItem))
      = ResolvedProduct.id ∘ Prod.snd := rfl
  rw [h1, ← List.map_map, List.enum_map_snd]
  unfold resolvedProducts
  rw [List.map_map]
  rfl

theorem mem_createdItems_quantity (st : Store) (req : CreateReq)
    (txId : String) (itemId : ℕ → String) :
    ∀ it ∈ createdItems st req txId itemId,
      it.quantity = requestedQuantity req.products it.productId := by
  intro it hit
  simp only [createdItems, List.mem_map] at hit
  obtain ⟨e, he, rfl⟩ := hit
  have h2 : e.2 ∈ resolvedProducts st req := List.snd_mem_of_mem_enum he
  simp only [resolvedProducts, List.mem_map] at h2
  obtain ⟨q, _, hq⟩ := h2
  rw [← hq]

theorem length_filter_eq_of_map {α β : Type} [DecidableEq β] (l : List α)
    (f : α → β) (b : β) :
    (l.filter (fun x => f x = b)).length
      = ((l.map f).filter (fun y => y = b)).length := by
  rw [List.filter_map, List.length_map]
  rfl

theorem nodup_filter_eq_length_one {β : Type} [DecidableEq β] (l : List β)
    (b : β) (h : l.Nodup) (hb : b ∈ l) :
    (l.filter (fun y => y = b)).length = 1 := by
  have h1 : List.count b l = 1 := List.count_eq_one_of_mem h hb
  rw [List.count_eq_countP, List.countP_eq_length_filter] at h1
  rw [← h1]
  have hfun : (fun y : β => decide (y = b)) = (fun x : β => x == b) := by
    funext x
    rw [Bool.eq_iff_iff]
    simp [beq_iff_eq]
  rw [hfun]

/-- C1 (amended): for every create request referencing at least one
catalog product id, with positive quantities, whose computed gross amount
is integral (the `total Int` column of the schema accepts it),
`createTransaction` succeeds and persists an order header with id `txId`,
status PENDING, and total exactly the sum over the resolved catalog
products of price times the requested quantity (the quantity of the
first request entry with that id); the number of persisted line items of
the order equals the number of distinct requested ids found in the
catalog.  For a non-integral gross amount the header write is rejected
and nothing is created (see the counterexample). -/
theorem createTransaction_total_status_itemCount
    (st : Store) (req : CreateReq) (txId : String) (itemId : ℕ → String)
    (hnodup : (st.products.map Product.id).Nodup)
    (hfresh : ∀ it ∈ st.transactionsItems, it.transactionId ≠ txId)
    (hres : ∃ rp ∈ req.products, rp.id ∈ st.products.map Product.id)
    (hpos : ∀ rp ∈ req.products, 0 < rp.quantity)
    (hden : (grossAmount st req).den = 1) :
    (∃ body, (createTransaction st req txId itemId false).2
        = CreateResult.success body) ∧
    (∃ t ∈ (createTransaction st req txId itemId false).1.transactions,
      t.id = txId ∧ t.status = "PENDING" ∧
      (t.total : ℚ) = ((st.products.filter
            (fun p => p.id ∈ req.products.map ReqProduct.id)).map
          (fun p => p.price * (requestedQuantity req.products p.id : ℚ))).sum) ∧
    (((createTransaction st req txId itemId false).1.transactionsItems.filter
        (fun it => it.transactionId = txId)).length
      = ((req.products.map ReqProduct.id).dedup.filter
          (fun i => i ∈ st.products.map Product.id)).length) := by
  have h0 := resolved_nonempty_of_some_id st req hres
  rw [createTransaction_success_eq st req txId itemId h0 hden]
  refine ⟨⟨createdBody st req txId, rfl⟩, ?_, ?_⟩
  · refine ⟨createdHeader st req txId, ?_, rfl, rfl, ?_⟩
    · exact List.mem_append_right _ (List.mem_singleton.mpr rfl)
    · show ((grossAmount st req).num : ℚ) = _
      rw [(Rat.den_eq_one_iff (grossAmount st req)).mp hden]
      exact grossAmount_eq_sum st req
  · rw [new_items_filter_length st req txId itemId hfresh,
      createdItems_length st req txId itemId]
    exact length_filter_eq_length_dedup_filter st.products
      (req.products.map ReqProduct.id) hnodup

/-- Catalog product of the running example: price 21/2 (10.5). -/
def wProduct1 : Product :=
  { id := "P1", name := "Coffee", image := "coffee.png", category := "drink",
    description := "hot coffee", price := (21 : ℚ) / 2 }

/-- Catalog product of the running example: price 5. -/
def wProduct2 : Product :=
  { id := "P2", name := "Tea", image := "tea.png", category := "drink",
    description := "hot tea", price := 5 }

/-- Store of the running example: two catalog products, no orders yet. -/
def wStore : Store :=
  { products := [wProduct1, wProduct2], transactions := [],
    transactionsItems := [] }

/-- Create request of the running example: two units of P1, one of P2. -/
def wReq : CreateReq :=
  { products := [{ id := "P1", quantity := 2 }, { id := "P2", quantity := 1 }],
    customerName := "Ann", customerEmail := "ann@example.com",
    customerPhone := "555", customerTableNumber := 7 }

/-- Deterministic stand-in for the per-item nanoid draws. -/
def wItemId : ℕ → String := fun n => "TRX-ITEM-" ++ toString n

theorem grossAmount_wReq_eq : grossAmount wStore wReq = 26 := by
  have h : grossAmount wStore wReq
      = 0 + ((2 : ℕ) : ℚ) * wProduct1.price + ((1 : ℕ) : ℚ) * wProduct2.price :=
    rfl
  rw [h]
  norm_num [wProduct1, wProduct2]

/-- Witness for C1 at the running example (gross amount 26, integral). -/
theorem createTransaction_total_status_itemCount_witness :
    (∃ body, (createTransaction wStore wReq "TRX-ab-cdefghij" wItemId false).2
        = CreateResult.success body) ∧
    (∃ t ∈ (createTransaction wStore wReq "TRX-ab-cdefghij" wItemId
        false).1.transactions,
      t.id = "TRX-ab-cdefghij" ∧ t.status = "PENDING" ∧
      (t.total : ℚ) = ((wStore.products.filter
            (fun p => p.id ∈ wReq.products.map ReqProduct.id)).map
          (fun p => p.price * (requestedQuantity wReq.products p.id : ℚ))).sum) ∧
    (((createTransaction wStore wReq "TRX-ab-cdefghij" wItemId
          false).1.transactionsItems.filter
        (fun it => it.transactionId = "TRX-ab-cdefghij")).length
      = ((wReq.products.map ReqProduct.id).dedup.filter
          (fun i => i ∈ wStore.products.map Product.id)).length) :=
  createTransaction_total_status_itemCount wStore wReq "TRX-ab-cdefghij"
    wItemId (by decide) (by decide) (by decide) (by decide)
    (by rw [grossAmount_wReq_eq]; norm_num)

/-- Create request refuting C1 as stated: one unit of the 21/2-priced
product P1 — a resolvable id with positive quantity whose gross amount
21/2 is not an integer. -/
def wReqOne : CreateReq :=
  { products := [{ id := "P1", quantity := 1 }],
    customerName := "Gil", customerEmail := "gil@example.com",
    customerPhone := "560", customerTableNumber := 9 }

theorem grossAmount_wReqOne_eq : grossAmount wStore wReqOne = 21 / 2 := by
  have h : grossAmount wStore wReqOne
      = 0 + ((1 : ℕ) : ℚ) * wProduct1.price := rfl
  rw [h]
  norm_num [wProduct1]

/-- C1 counterexample: the request satisfies the hypotheses of the claim
(a catalog id, positive quantity), but the computed gross amount 21/2 is
not an integer, so the `total Int` column of the schema rejects the
header write: the handler propagates the store error, the store is
unchanged, and no order is created at all — refuting the claim as
stated. -/
theorem createTransaction_nonintegral_total_rejected :
    (∃ rp ∈ wReqOne.products, rp.id ∈ wStore.products.map Product.id) ∧
    (∀ rp ∈ wReqOne.products, 0 < rp.quantity) ∧
    (createTransaction wStore wReqOne "TRX-qr-stuvwxyz" wItemId false
      = (wStore, CreateResult.storeError)) := by
  refine ⟨by decide, by decide, ?_⟩
  refine createTransaction_nonintegral_eq wStore wReqOne "TRX-qr-stuvwxyz"
    wItemId false (by decide) ?_
  rw [grossAmount_wReqOne_eq]
  norm_num

/-- C6: for every create request none of whose product ids occurs in the
catalog, `createTransaction` answers the 404 body (rendered with HTTP
status 404) and leaves the store completely unchanged, whether or not the
item write would have failed. -/
theorem createTransaction_all_unresolved_404
    (st : Store) (req : CreateReq) (txId : String) (itemId : ℕ → String)
    (itemsFail : Bool)
    (h : ∀ rp ∈ req.products, rp.id ∉ st.products.map Product.id) :
    createTransaction st req txId itemId itemsFail
        = (st, CreateResult.notFound) ∧
    CreateResult.notFound.httpStatus = 404 := by
  refine ⟨?_, rfl⟩
  apply createTransaction_notFound_eq
  rw [List.length_eq_zero, List.filter_eq_nil_iff]
  intro p hp
  simp only [decide_eq_true_eq, List.mem_map]
  rintro ⟨rp, hrp, hid⟩
  exact h rp hrp (List.mem_map.mpr ⟨p, hp, hid.symm⟩)

/-- Create request whose only product id is absent from the example
catalog. -/
def wReqMiss : CreateReq :=
  { products := [{ id := "P9", quantity := 1 }],
    customerName := "Bob", customerEmail := "bob@example.com",
    customerPhone := "556", customerTableNumber := 3 }

/-- Witness for C6: a request for the unknown id P9 against the example
store. -/
theorem createTransaction_all_unresolved_404_witness :
    createTransaction wStore wReqMiss "TRX-cd-efghijkl" wItemId false
        = (wStore, CreateResult.notFound) ∧
    CreateResult.notFound.httpStatus = 404 :=
  createTransaction_all_unresolved_404 wStore wReqMiss "TRX-cd-efghijkl"
    wItemId false (by decide)

/-- C5 (amended): for a create request mixing resolvable ids with an id
`d` absent from the catalog, whose computed gross amount is integral (the
`total Int` column of the schema accepts it), creation succeeds, the
response product list and the persisted line items of the order cover
exactly the resolved catalog ids (so `d` appears in neither), and the
persisted total sums only over the resolved products; no error is raised
for the dropped id.  For a non-integral gross amount the header write is
rejected and creation fails (see the counterexample). -/
theorem createTransaction_drops_unresolved_ids
    (st : Store) (req : CreateReq) (txId : String) (itemId : ℕ → String)
    (d : String)
    (hfresh : ∀ it ∈ st.transactionsItems, it.transactionId ≠ txId)
    (hres : ∃ rp ∈ req.products, rp.id ∈ st.products.map Product.id)
    (hd_req : d ∈ req.products.map ReqProduct.id)
    (hd_not : d ∉ st.products.map Product.id)
    (hden : (grossAmount st req).den = 1) :
    (∃ body, (createTransaction st req txId itemId false).2
        = CreateResult.success body ∧
      body.data.products.map ResolvedProduct.id
        = (st.products.filter
            (fun p => p.id ∈ req.products.map ReqProduct.id)).map Product.id ∧
      d ∉ body.data.products.map ResolvedProduct.id) ∧
    (∀ it ∈ (createTransaction st req txId itemId false).1.transactionsItems,
      it.transactionId = txId → it.productId ≠ d) ∧
    (∃ t ∈ (createTransaction st req txId itemId false).1.transactions,
      t.id = txId ∧
      (t.total : ℚ) = ((st.products.filter
            (fun p => p.id ∈ req.products.map ReqProduct.id)).map
          (fun p => p.price * (requestedQuantity req.products p.id : ℚ))).sum) := by
  have h0 := resolved_nonempty_of_some_id st req hres
  have hmapid : (resolvedProducts st req).map ResolvedProduct.id
      = (st.products.filter
          (fun p => p.id ∈ req.products.map ReqProduct.id)).map Product.id := by
    unfold resolvedProducts
    rw [List.map_map]
    rfl
  have hnotin : d ∉ (st.products.filter
      (fun p => p.id ∈ req.products.map ReqProduct.id)).map Product.id := by
    intro hd
    obtain ⟨p, hp, hpid⟩ := List.mem_map.mp hd
    exact hd_not (List.mem_map.mpr ⟨p, (List.mem_filter.mp hp).1, hpid⟩)
  rw [createTransaction_success_eq st req txId itemId h0 hden]
  refine ⟨⟨createdBody st req txId, rfl, ?_, ?_⟩, ?_, ?_⟩
  · exact hmapid
  · rw [show (createdBody st req txId).data.products
        = resolvedProducts st req from rfl, hmapid]
    exact hnotin
  · intro it hit htx
    rcases List.mem_append.mp hit with hold | hnewm
    · exact absurd htx (hfresh it hold)
    · intro hdid
      apply hnotin
      rw [← createdItems_map_productId st req txId itemId]
      exact List.mem_map.mpr ⟨it, hnewm, hdid⟩
  · refine ⟨createdHeader st req txId,
      List.mem_append_right _ (List.mem_singleton.mpr rfl), rfl, ?_⟩
    show ((grossAmount st req).num : ℚ) = _
    rw [(Rat.den_eq_one_iff (grossAmount st req)).mp hden]
    exact grossAmount_eq_sum st req

/-- Create request of the mixed example: resolvable P1 plus unknown P9. -/
def wReqMixed : CreateReq :=
  { products := [{ id := "P1", quantity := 2 }, { id := "P9", quantity := 4 }],
    customerName := "Cid", customerEmail := "cid@example.com",
    customerPhone := "557", customerTableNumber := 2 }

theorem grossAmount_wReqMixed_eq : grossAmount wStore wReqMixed = 21 := by
  have h : grossAmount wStore wReqMixed
      = 0 + ((2 : ℕ) : ℚ) * wProduct1.price := rfl
  rw [h]
  norm_num [wProduct1]

/-- Witness for C5 (amended): P1 resolves (two units, gross 21), P9 is
dropped. -/
theorem createTransaction_drops_unresolved_ids_witness :
    (∃ body, (createTransaction wStore wReqMixed "TRX-ef-ghijklmn" wItemId
          false).2 = CreateResult.success body ∧
      body.data.products.map ResolvedProduct.id
        = (wStore.products.filter
            (fun p => p.id ∈ wReqMixed.products.map ReqProduct.id)).map
            Product.id ∧
      "P9" ∉ body.data.products.map ResolvedProduct.id) ∧
    (∀ it ∈ (createTransaction wStore wReqMixed "TRX-ef-ghijklmn" wItemId
        false).1.transactionsItems,
      it.transactionId = "TRX-ef-ghijklmn" → it.productId ≠ "P9") ∧
    (∃ t ∈ (createTransaction wStore wReqMixed "TRX-ef-ghijklmn" wItemId
        false).1.transactions,
      t.id = "TRX-ef-ghijklmn" ∧
      (t.total : ℚ) = ((wStore.products.filter
            (fun p => p.id ∈ wReqMixed.products.map ReqProduct.id)).map
          (fun p =>
            p.price * (requestedQuantity wReqMixed.products p.id : ℚ))).sum) :=
  createTransaction_drops_unresolved_ids wStore wReqMixed "TRX-ef-ghijklmn"
    wItemId "P9" (by decide) (by decide) (by decide) (by decide)
    (by rw [grossAmount_wReqMixed_eq]; norm_num)

/-- Create request refuting C5 as stated: one unit of the 21/2-priced P1
together with the unknown P9 — some ids resolve and some do not, but the
gross amount 21/2 is not an integer. -/
def wReqOneMixed : CreateReq :=
  { products := [{ id := "P1", quantity := 1 }, { id := "P9", quantity := 1 }],
    customerName := "Hal", customerEmail := "hal@example.com",
    customerPhone := "561", customerTableNumber := 8 }

theorem grossAmount_wReqOneMixed_eq : grossAmount wStore wReqOneMixed
    = 21 / 2 := by
  have h : grossAmount wStore wReqOneMixed
      = 0 + ((1 : ℕ) : ℚ) * wProduct1.price := rfl
  rw [h]
  norm_num [wProduct1]

/-- C5 counterexample: a request in which P1 resolves and P9 does not,
yet creation does not succeed: the gross amount 21/2 over the resolved
products is rejected by the `total Int` column, the store error
propagates and nothing is persisted — refuting the claim, as stated,
that such a creation succeeds. -/
theorem createTransaction_mixed_ids_nonintegral_rejected :
    ("P1" ∈ wReqOneMixed.products.map ReqProduct.id) ∧
    ("P1" ∈ wStore.products.map Product.id) ∧
    ("P9" ∈ wReqOneMixed.products.map ReqProduct.id) ∧
    ("P9" ∉ wStore.products.map Product.id) ∧
    (createTransaction wStore wReqOneMixed "TRX-st-uvwxyzab" wItemId false
      = (wStore, CreateResult.storeError)) := by
  refine ⟨by decide, by decide, by decide, by decide, ?_⟩
  refine createTransaction_nonintegral_eq wStore wReqOneMixed
    "TRX-st-uvwxyzab" wItemId false (by decide) ?_
  rw [grossAmount_wReqOneMixed_eq]
  norm_num

/-- C10 (amended): when a request lists the same catalog id `p.id` at
least twice and the computed gross amount is integral (the `total Int`
column of the schema accepts it), the created order carries exactly one
line item for that product, its quantity is the quantity of the first
request entry with that id, and the persisted total is computed from
first-occurrence quantities only.  For a non-integral first-occurrence
gross amount the header write is rejected and no order or item is
created (see the counterexample). -/
theorem createTransaction_duplicate_ids_first_occurrence
    (st : Store) (req : CreateReq) (txId : String) (itemId : ℕ → String)
    (p : Product) (r1 : ReqProduct)
    (hnodup : (st.products.map Product.id).Nodup)
    (hfresh : ∀ it ∈ st.transactionsItems, it.transactionId ≠ txId)
    (hp : p ∈ st.products)
    (hfirst : req.products.find? (fun r => r.id = p.id) = some r1)
    (hdup : 2 ≤ (req.products.filter (fun r => r.id = p.id)).length)
    (hden : (grossAmount st req).den = 1) :
    ((((createTransaction st req txId itemId false).1.transactionsItems.filter
        (fun it => it.transactionId = txId)).filter
        (fun it => it.productId = p.id)).length = 1) ∧
    (∀ it ∈ (createTransaction st req txId itemId false).1.transactionsItems,
      it.transactionId = txId → it.productId = p.id →
        it.quantity = r1.quantity) ∧
    (∃ t ∈ (createTransaction st req txId itemId false).1.transactions,
      t.id = txId ∧
      (t.total : ℚ) = ((st.products.filter
            (fun q => q.id ∈ req.products.map ReqProduct.id)).map
          (fun q => q.price * (requestedQuantity req.products q.id : ℚ))).sum) := by
  have hr1 : r1 ∈ req.products := List.mem_of_find?_eq_some hfirst
  have hr1id : r1.id = p.id := by
    have := List.find?_some hfirst
    simpa using this
  have hres : ∃ rp ∈ req.products, rp.id ∈ st.products.map Product.id :=
    ⟨r1, hr1, by rw [hr1id]; exact List.mem_map.mpr ⟨p, hp, rfl⟩⟩
  have h0 := resolved_nonempty_of_some_id st req hres
  rw [createTransaction_success_eq st req txId itemId h0 hden]
  refine ⟨?_, ?_, ?_⟩
  · rw [new_items_filter_eq st req txId itemId hfresh]
    rw [length_filter_eq_of_map (createdItems st req txId itemId)
      TransactionsItem.productId p.id]
    rw [createdItems_map_productId st req txId itemId]
    rw [← length_filter_eq_of_map (st.products.filter
        (fun q => q.id ∈ req.products.map ReqProduct.id)) Product.id p.id]
    have hsplit : st.products.filter (fun q => q.id = p.id)
        = (st.products.filter
            (fun q => q.id ∈ req.products.map ReqProduct.id)).filter
            (fun q => q.id = p.id) := by
      rw [List.filter_filter]
      apply List.filter_congr
      intro q _
      rw [Bool.eq_iff_iff]
      simp only [Bool.and_eq_true, decide_eq_true_eq]
      constructor
      · intro hq
        exact ⟨hq, by rw [hq, ← hr1id]; exact List.mem_map.mpr ⟨r1, hr1, rfl⟩⟩
      · exact fun hq => hq.1
    rw [← hsplit]
    rw [length_filter_eq_of_map st.products Product.id p.id]
    exact nodup_filter_eq_length_one (st.products.map Product.id) p.id hnodup
      (List.mem_map.mpr ⟨p, hp, rfl⟩)
  · intro it hit htx hpid
    rcases List.mem_append.mp hit with hold | hnewm
    · exact absurd htx (hfresh it hold)
    · rw [mem_createdItems_quantity st req txId itemId it hnewm, hpid,
        requestedQuantity, hfirst]
      rfl
  · refine ⟨createdHeader st req txId,
      List.mem_append_right _ (List.mem_singleton.mpr rfl), rfl, ?_⟩
    show ((grossAmount st req).num : ℚ) = _
    rw [(Rat.den_eq_one_iff (grossAmount st req)).mp hden]
    exact grossAmount_eq_sum st req

/-- C2: run on the example store with the item write failing after the
header write succeeded: the handler reports the storage error, yet the
order header remains persisted with zero line items — the two writes are
not atomic and nothing compensates. -/
theorem createTransaction_partial_write_header_persists :
    ((createTransaction wStore wReq "TRX-kl-mnopqrst" wItemId true).2
        = CreateResult.storeError) ∧
    ((createTransaction wStore wReq "TRX-kl-mnopqrst" wItemId
        true).1.transactions.map Transaction.id = ["TRX-kl-mnopqrst"]) ∧
    ((createTransaction wStore wReq "TRX-kl-mnopqrst" wItemId
        true).1.transactionsItems = []) := by
  rw [createTransaction_storeError_eq wStore wReq "TRX-kl-mnopqrst" wItemId
    (by decide) (by rw [grossAmount_wReq_eq]; norm_num)]
  exact ⟨rfl, rfl, rfl⟩

/-- C4 counterexample: on a successful creation the handler answers with
`res.json` and no `res.status` call, so the wire HTTP status is 200, not
the 201 the claim states. -/
theorem createTransaction_http_status_not_201 :
    ((createTransaction wStore wReq "TRX-ij-klmnopqr" wItemId
        false).2.httpStatus = 200) ∧
    ¬ ((createTransaction wStore wReq "TRX-ij-klmnopqr" wItemId
        false).2.httpStatus = 201) ∧
    (∃ body, (createTransaction wStore wReq "TRX-ij-klmnopqr" wItemId
        false).2 = CreateResult.success body) := by
  rw [createTransaction_success_eq wStore wReq "TRX-ij-klmnopqr" wItemId
    (by decide) (by rw [grossAmount_wReq_eq]; norm_num)]
  exact ⟨rfl, by decide, ⟨createdBody wStore wReq "TRX-ij-klmnopqr", rfl⟩⟩

/-- C4 (amended): on every successful creation — a request with at least
one resolvable id whose gross amount is integral, so the header write is
accepted — the response is the envelope assembled in memory during
creation: body statusCode 201 and label Created, data carrying the order
id, status PENDING, the customer fields, null payment fields and the
resolved products with their quantities (and no total field) — sent with
HTTP wire status 200, not re-read from storage. -/
theorem createTransaction_success_response_assembled
    (st : Store) (req : CreateReq) (txId : String) (itemId : ℕ → String)
    (hres : ∃ rp ∈ req.products, rp.id ∈ st.products.map Product.id)
    (hden : (grossAmount st req).den = 1) :
    ∃ body, (createTransaction st req txId itemId false).2
        = CreateResult.success body ∧
      (createTransaction st req txId itemId false).2.httpStatus = 200 ∧
      body.status = "Created" ∧ body.statusCode = 201 ∧
      body.data.id = txId ∧ body.data.status = "PENDING" ∧
      body.data.customerName = req.customerName ∧
      body.data.customerEmail = req.customerEmail ∧
      body.data.customerPhone = req.customerPhone ∧
      body.data.customerTableNumber = req.customerTableNumber ∧
      body.data.snapToken = none ∧ body.data.snapRedirectUrl = none ∧
      body.data.products = (st.products.filter
          (fun p => p.id ∈ req.products.map ReqProduct.id)).map (fun p =>
        { id := p.id, name := p.name, image := p.image,
          category := p.category, description := p.description,
          price := p.price,
          quantity := requestedQuantity req.products p.id }) := by
  have h0 := resolved_nonempty_of_some_id st req hres
  rw [createTransaction_success_eq st req txId itemId h0 hden]
  exact ⟨createdBody st req txId, rfl, rfl, rfl, rfl, rfl, rfl, rfl, rfl,
    rfl, rfl, rfl, rfl, rfl⟩

/-- Witness for C4 (amended) at the running example. -/
theorem createTransaction_success_response_assembled_witness :
    ∃ body, (createTransaction wStore wReq "TRX-mn-opqrstuv" wItemId false).2
        = CreateResult.success body ∧
      (createTransaction wStore wReq "TRX-mn-opqrstuv" wItemId
          false).2.httpStatus = 200 ∧
      body.status = "Created" ∧ body.statusCode = 201 ∧
      body.data.id = "TRX-mn-opqrstuv" ∧ body.data.status = "PENDING" ∧
      body.data.customerName = wReq.customerName ∧
      body.data.customerEmail = wReq.customerEmail ∧
      body.data.customerPhone = wReq.customerPhone ∧
      body.data.customerTableNumber = wReq.customerTableNumber ∧
      body.data.snapToken = none ∧ body.data.snapRedirectUrl = none ∧
      body.data.products = (wStore.products.filter
          (fun p => p.id ∈ wReq.products.map ReqProduct.id)).map (fun p =>
        { id := p.id, name := p.name, image := p.image,
          category := p.category, description := p.description,
          price := p.price,
          quantity := requestedQuantity wReq.products p.id }) :=
  createTransaction_success_response_assembled wStore wReq "TRX-mn-opqrstuv"
    wItemId (by decide) (by rw [grossAmount_wReq_eq]; norm_num)

/-- Create request of the duplicate example: P1 listed twice with
different quantities (2 first, then 7). -/
def wReqDup : CreateReq :=
  { products := [{ id := "P1", quantity := 2 }, { id := "P1", quantity := 7 }],
    customerName := "Dot", customerEmail := "dot@example.com",
    customerPhone := "558", customerTableNumber := 5 }

theorem grossAmount_wReqDup_eq : grossAmount wStore wReqDup = 21 := by
  have h : grossAmount wStore wReqDup
      = 0 + ((2 : ℕ) : ℚ) * wProduct1.price := rfl
  rw [h]
  norm_num [wProduct1]

/-- Witness for C10 (amended): one item for P1, quantity 2 (the first
occurrence; gross 21, integral). -/
theorem createTransaction_duplicate_ids_first_occurrence_witness :
    ((((createTransaction wStore wReqDup "TRX-gh-ijklmnop" wItemId
          false).1.transactionsItems.filter
        (fun it => it.transactionId = "TRX-gh-ijklmnop")).filter
        (fun it => it.productId = wProduct1.id)).length = 1) ∧
    (∀ it ∈ (createTransaction wStore wReqDup "TRX-gh-ijklmnop" wItemId
        false).1.transactionsItems,
      it.transactionId = "TRX-gh-ijklmnop" → it.productId = wProduct1.id →
        it.quantity = 2) ∧
    (∃ t ∈ (createTransaction wStore wReqDup "TRX-gh-ijklmnop" wItemId
        false).1.transactions,
      t.id = "TRX-gh-ijklmnop" ∧
      (t.total : ℚ) = ((wStore.products.filter
            (fun q => q.id ∈ wReqDup.products.map ReqProduct.id)).map
          (fun q =>
            q.price * (requestedQuantity wReqDup.products q.id : ℚ))).sum) :=
  createTransaction_duplicate_ids_first_occurrence wStore wReqDup
    "TRX-gh-ijklmnop" wItemId wProduct1 { id := "P1", quantity := 2 }
    (by decide) (by decide) (List.mem_cons_self _ _) (by decide) (by decide)
    (by rw [grossAmount_wReqDup_eq]; norm_num)

/-- Create request refuting C10 as stated: P1 listed twice (one unit
first, then three), whose first-occurrence gross amount 21/2 is not an
integer. -/
def wReqOneDup : CreateReq :=
  { products := [{ id := "P1", quantity := 1 }, { id := "P1", quantity := 3 }],
    customerName := "Ivo", customerEmail := "ivo@example.com",
    customerPhone := "562", customerTableNumber := 6 }

theorem grossAmount_wReqOneDup_eq : grossAmount wStore wReqOneDup
    = 21 / 2 := by
  have h : grossAmount wStore wReqOneDup
      = 0 + ((1 : ℕ) : ℚ) * wProduct1.price := rfl
  rw [h]
  norm_num [wProduct1]

/-- C10 counterexample: P1 requested twice, so the claim asserts the
created order carries exactly one line item for it; but the
first-occurrence gross amount 21/2 is rejected by the `total Int` column,
the store error propagates, and the store — in particular its item
collection — is unchanged: no line item for the product exists because no
order is created at all. -/
theorem createTransaction_duplicate_nonintegral_rejected :
    (2 ≤ (wReqOneDup.products.filter (fun r => r.id = "P1")).length) ∧
    (createTransaction wStore wReqOneDup "TRX-uv-wxyzabcd" wItemId false
      = (wStore, CreateResult.storeError)) ∧
    ((createTransaction wStore wReqOneDup "TRX-uv-wxyzabcd" wItemId
        false).1.transactionsItems = []) := by
  have heval : createTransaction wStore wReqOneDup "TRX-uv-wxyzabcd" wItemId
      false = (wStore, CreateResult.storeError) := by
    refine createTransaction_nonintegral_eq wStore wReqOneDup
      "TRX-uv-wxyzabcd" wItemId false (by decide) ?_
    rw [grossAmount_wReqOneDup_eq]
    norm_num
  refine ⟨by decide, heval, ?_⟩
  rw [heval]
  rfl

/-- Stored order of the update/read examples: status PENDING, a payment
method set, total 20 (2 units of P1 at the snapshotted price 10). -/
def wTrans : Transaction :=
  { id := "TRX-A", total := 20, status := "PENDING", customerName := "Eve",
    customerEmail := "eve@example.com", customerPhone := "559",
    customerTableNumber := 4, snapToken := none, snapRedirectUrl := none,
    paymentMethod := some "cash" }

/-- Stored line item of the read examples: snapshot name Coffee Old and
snapshot price 10, referencing catalog product P1. -/
def wItem : TransactionsItem :=
  { id := "TRX-ITEM-0000000001", transactionId := "TRX-A", productId := "P1",
    productName := "Coffee Old", price := 10, quantity := 2 }

/-- Store of the update/read examples: the example catalog, one order,
one line item. -/
def wStoreTx : Store :=
  { products := [wProduct1, wProduct2], transactions := [wTrans],
    transactionsItems := [wItem] }

/-- C3: updating the status of an id matching no stored transaction makes
the store-level update fail; the handler has no catch, so the failure
propagates out of it (rendered as a generic 500 by the terminal error
handler) instead of becoming the 404 Transaction-not-found response, and
the store is left unmutated. -/
theorem updateTransactionStatus_missing_id_propagates_store_error :
    (updateTransactionStatus wStoreTx "TRX-B" "PAID"
        = (wStoreTx, UpdateResult.errorPropagated UpdateErr.recordNotFound)) ∧
    (UpdateResult.errorPropagated UpdateErr.recordNotFound
        ≠ UpdateResult.notFoundResp) := by
  exact ⟨rfl, by decide⟩

/-- C8 counterexample: for the existing order TRX-A and the supplied
status COMPLETED (the example value of the swagger documentation itself),
the schema enum `payment_status` rejects the write: the update fails and
the stored status is not overwritten with the supplied value. -/
theorem updateTransactionStatus_nonenum_not_overwritten :
    (updateTransactionStatus wStoreTx "TRX-A" "COMPLETED"
        = (wStoreTx,
           UpdateResult.errorPropagated UpdateErr.invalidStatusValue)) ∧
    ((updateTransactionStatus wStoreTx "TRX-A" "COMPLETED").1.transactions.map
        Transaction.status = ["PENDING"]) := by
  exact ⟨rfl, rfl⟩

/-- C8 (amended): for every existing order id and every supplied status
among the schema enum values, `updateTransactionStatus` overwrites the
status with exactly the supplied value, resets paymentMethod to null
regardless of its previous value, and leaves every other field of the
order, every other order, the line items and the catalog unchanged. -/
theorem updateTransactionStatus_enum_frame
    (st : Store) (id status : String) (t : Transaction)
    (hfind : st.transactions.find? (fun u => u.id = id) = some t)
    (henum : status ∈ payment_status) :
    ∃ t1 : Transaction,
      updateTransactionStatus st id status
        = ({ st with transactions :=
              st.transactions.map (fun u => if u.id = id then t1 else u) },
           UpdateResult.accepted t1) ∧
      t1.status = status ∧ t1.paymentMethod = none ∧
      t1.id = t.id ∧ t1.total = t.total ∧
      t1.customerName = t.customerName ∧ t1.customerEmail = t.customerEmail ∧
      t1.customerPhone = t.customerPhone ∧
      t1.customerTableNumber = t.customerTableNumber ∧
      t1.snapToken = t.snapToken ∧ t1.snapRedirectUrl = t.snapRedirectUrl ∧
      (updateTransactionStatus st id status).1.transactionsItems
        = st.transactionsItems ∧
      (updateTransactionStatus st id status).1.products = st.products := by
  have hrun : updateTransactionStatus st id status
      = ({ st with transactions :=
            st.transactions.map (fun u =>
              if u.id = id then
                ({ t with status := status, paymentMethod := none } :
                  Transaction)
              else u) },
         UpdateResult.accepted
           { t with status := status, paymentMethod := none }) := by
    unfold updateTransactionStatus prismaTransactionUpdate
    rw [if_pos henum, hfind]
  exact ⟨{ t with status := status, paymentMethod := none }, hrun, rfl, rfl,
    rfl, rfl, rfl, rfl, rfl, rfl, rfl, rfl, by rw [hrun], by rw [hrun]⟩

/-- Witness for C8 (amended): TRX-A updated to PAID. -/
theorem updateTransactionStatus_enum_frame_witness :
    ∃ t1 : Transaction,
      updateTransactionStatus wStoreTx "TRX-A" "PAID"
        = ({ wStoreTx with transactions :=
              wStoreTx.transactions.map (fun u =>
                if u.id = "TRX-A" then t1 else u) },
           UpdateResult.accepted t1) ∧
      t1.status = "PAID" ∧ t1.paymentMethod = none ∧
      t1.id = wTrans.id ∧ t1.total = wTrans.total ∧
      t1.customerName = wTrans.customerName ∧
      t1.customerEmail = wTrans.customerEmail ∧
      t1.customerPhone = wTrans.customerPhone ∧
      t1.customerTableNumber = wTrans.customerTableNumber ∧
      t1.snapToken = wTrans.snapToken ∧
      t1.snapRedirectUrl = wTrans.snapRedirectUrl ∧
      (updateTransactionStatus wStoreTx "TRX-A" "PAID").1.transactionsItems
        = wStoreTx.transactionsItems ∧
      (updateTransactionStatus wStoreTx "TRX-A" "PAID").1.products
        = wStoreTx.products :=
  updateTransactionStatus_enum_frame wStoreTx "TRX-A" "PAID" wTrans rfl
    (by decide)

theorem reformProducts_map_fetch (catalog : List Product)
    (l : List TransactionsItem)
    (h : ∀ it ∈ l, (currentProduct catalog it.productId).isSome) :
    reformProducts (l.map (fetchItem catalog))
      = some (l.map (fun it =>
          ({ id := it.productId, name := it.productName, price := it.price,
             quantity := it.quantity,
             image := ((currentProduct catalog it.productId).map
                 Product.image).getD "" } : ReformedProduct))) := by
  induction l with
  | nil => rfl
  | cons a l ih =>
    obtain ⟨p, hp⟩ :=
      Option.isSome_iff_exists.mp (h a (List.mem_cons_self a l))
    have hrest := ih (fun it hit => h it (List.mem_cons_of_mem a hit))
    simp only [List.map_cons, reformProducts, fetchItem, hp, Option.map_some,
      hrest]
    rfl

theorem reformProducts_none_of_dangling (catalog : List Product)
    (l : List TransactionsItem) (it : TransactionsItem) (hit : it ∈ l)
    (hnone : currentProduct catalog it.productId = none) :
    reformProducts (l.map (fetchItem catalog)) = none := by
  induction l with
  | nil => cases hit
  | cons a l ih =>
    rcases List.mem_cons.mp hit with rfl | h2
    · simp [reformProducts, fetchItem, hnone]
    · cases hpa : (currentProduct catalog a.productId).map Product.toSel with
      | none => simp [reformProducts, fetchItem, hpa]
      | some pr => simp [reformProducts, fetchItem, hpa, ih h2]

theorem reformAll_none_of_mem (st : Store) (l : List Transaction)
    (t : Transaction) (ht : t ∈ l)
    (h : reformTransaction (fetchTransaction st t) = none) :
    reformAll st l = none := by
  induction l with
  | nil => cases ht
  | cons a l ih =>
    rcases List.mem_cons.mp ht with rfl | h2
    · simp [reformAll, h]
    · cases ha : reformTransaction (fetchTransaction st a) with
      | none => simp [reformAll, ha]
      | some r => simp [reformAll, ha, ih h2]

theorem reformTransaction_fetch_none (st1 : Store) (t : Transaction)
    (it : TransactionsItem) (hit : it ∈ st1.transactionsItems)
    (hit_t : it.transactionId = t.id)
    (hcp : currentProduct st1.products it.productId = none) :
    reformTransaction (fetchTransaction st1 t) = none := by
  unfold reformTransaction fetchTransaction
  have hmem : it ∈ st1.transactionsItems.filter
      (fun u => u.transactionId = t.id) :=
    List.mem_filter.mpr ⟨hit, by simpa using hit_t⟩
  rw [reformProducts_none_of_dangling st1.products _ it hmem hcp]

theorem getTransactionById_eq_serverError (st1 : Store) (tid : String)
    (t : Transaction)
    (hfind : st1.transactions.find? (fun u => u.id = tid) = some t)
    (hnone : reformTransaction (fetchTransaction st1 t) = none) :
    getTransactionById st1 tid = GetByIdResult.serverError := by
  unfold getTransactionById
  rw [hfind]
  show (match reformTransaction (fetchTransaction st1 t) with
    | none => GetByIdResult.serverError
    | some r => GetByIdResult.ok r) = GetByIdResult.serverError
  rw [hnone]

theorem getTransactions_eq_none (st1 : Store) (t : Transaction)
    (ht : t ∈ st1.transactions)
    (hnone : reformTransaction (fetchTransaction st1 t) = none) :
    getTransactions st1 none = none := by
  unfold getTransactions
  apply reformAll_none_of_mem st1 _ t _ hnone
  simpa using ht

/-- C7: for every stored order all of whose line items still reference a
catalog product, the reshape step succeeds; the top-level order fields
pass through unchanged, and each output product entry takes id, name,
price and quantity from the stored line item (the creation-time snapshot)
and image from the currently referenced catalog product (the live value).
Under the resolvability hypothesis the `getD` default never applies. -/
theorem reformTransaction_field_provenance (st : Store) (t : Transaction)
    (h : ∀ it ∈ st.transactionsItems, it.transactionId = t.id →
          (currentProduct st.products it.productId).isSome) :
    ∃ r, reformTransaction (fetchTransaction st t) = some r ∧
      r.id = t.id ∧ r.total = t.total ∧ r.status = t.status ∧
      r.customerName = t.customerName ∧ r.customerEmail = t.customerEmail ∧
      r.customerPhone = t.customerPhone ∧
      r.customerTableNumber = t.customerTableNumber ∧
      r.snapToken = t.snapToken ∧ r.snapRedirectUrl = t.snapRedirectUrl ∧
      r.paymentMethod = t.paymentMethod ∧
      r.products = (st.transactionsItems.filter
          (fun it => it.transactionId = t.id)).map (fun it =>
        ({ id := it.productId, name := it.productName, price := it.price,
           quantity := it.quantity,
           image := ((currentProduct st.products it.productId).map
               Product.image).getD "" } : ReformedProduct)) := by
  have hall : ∀ it ∈ st.transactionsItems.filter
      (fun it => it.transactionId = t.id),
      (currentProduct st.products it.productId).isSome := by
    intro it hit
    have hm := List.mem_filter.mp hit
    exact h it hm.1 (by simpa using hm.2)
  have hrp := reformProducts_map_fetch st.products
    (st.transactionsItems.filter (fun it => it.transactionId = t.id)) hall
  have heq : reformTransaction (fetchTransaction st t)
      = some { id := t.id, total := t.total, status := t.status,
               customerName := t.customerName,
               customerEmail := t.customerEmail,
               customerPhone := t.customerPhone,
               customerTableNumber := t.customerTableNumber,
               snapToken := t.snapToken,
               snapRedirectUrl := t.snapRedirectUrl,
               paymentMethod := t.paymentMethod,
               products := (st.transactionsItems.filter
                   (fun it => it.transactionId = t.id)).map (fun it =>
                 ({ id := it.productId, name := it.productName,
                    price := it.price, quantity := it.quantity,
                    image := ((currentProduct st.products it.productId).map
                        Product.image).getD "" } : ReformedProduct)) } := by
    unfold reformTransaction fetchTransaction
    rw [hrp]
  exact ⟨_, heq, rfl, rfl, rfl, rfl, rfl, rfl, rfl, rfl, rfl, rfl, rfl⟩

/-- Witness for C7: the stored item snapshots name Coffee Old and
price 10 while the current catalog product P1 carries image coffee.png;
the reshaped entry mixes exactly these. -/
theorem reformTransaction_field_provenance_witness :
    ∃ r, reformTransaction (fetchTransaction wStoreTx wTrans) = some r ∧
      r.id = wTrans.id ∧ r.total = wTrans.total ∧ r.status = wTrans.status ∧
      r.customerName = wTrans.customerName ∧
      r.customerEmail = wTrans.customerEmail ∧
      r.customerPhone = wTrans.customerPhone ∧
      r.customerTableNumber = wTrans.customerTableNumber ∧
      r.snapToken = wTrans.snapToken ∧
      r.snapRedirectUrl = wTrans.snapRedirectUrl ∧
      r.paymentMethod = wTrans.paymentMethod ∧
      r.products = (wStoreTx.transactionsItems.filter
          (fun it => it.transactionId = wTrans.id)).map (fun it =>
        ({ id := it.productId, name := it.productName, price := it.price,
           quantity := it.quantity,
           image := ((currentProduct wStoreTx.products it.productId).map
               Product.image).getD "" } : ReformedProduct)) :=
  reformTransaction_field_provenance wStoreTx wTrans (by decide)

/-- C9: deleting a catalog product still referenced by a line item of a
stored order (deletion cascades nothing) makes the reshape dereference
fail on the dangling reference, so both the by-id read and the list read
of that order end in the uncaught error rendered as a generic server
error instead of returning the order. -/
theorem getTransactionById_deleted_product_server_error
    (st : Store) (pid : String) (t : Transaction) (p : Product)
    (it : TransactionsItem)
    (hfind : st.transactions.find? (fun u => u.id = t.id) = some t)
    (hdel : st.products.find? (fun q => q.id = pid) = some p)
    (hit : it ∈ st.transactionsItems) (hit_t : it.transactionId = t.id)
    (hit_p : it.productId = pid) :
    ∃ st1, deleteProductById st pid = Except.ok (st1, p) ∧
      getTransactionById st1 t.id = GetByIdResult.serverError ∧
      getTransactions st1 none = none := by
  refine ⟨{ st with products := st.products.filter (fun q => q.id ≠ pid) },
    ?_, ?_, ?_⟩
  · unfold deleteProductById
    rw [hdel]
  · refine getTransactionById_eq_serverError _ t.id t hfind
      (reformTransaction_fetch_none _ t it hit hit_t ?_)
    have hcp : currentProduct (st.products.filter (fun q => q.id ≠ pid))
        it.productId = none := by
      unfold currentProduct
      rw [List.find?_eq_none]
      intro q hq
      have hqne := (List.mem_filter.mp hq).2
      simp only [decide_eq_true_eq] at hqne ⊢
      rw [hit_p]
      simpa using hqne
    exact hcp
  · refine getTransactions_eq_none _ t
      (List.mem_of_find?_eq_some hfind)
      (reformTransaction_fetch_none _ t it hit hit_t ?_)
    have hcp : currentProduct (st.products.filter (fun q => q.id ≠ pid))
        it.productId = none := by
      unfold currentProduct
      rw [List.find?_eq_none]
      intro q hq
      have hqne := (List.mem_filter.mp hq).2
      simp only [decide_eq_true_eq] at hqne ⊢
      rw [hit_p]
      simpa using hqne
    exact hcp

/-- Witness for C9: deleting P1, still referenced by the stored item of
TRX-A, makes both reads of TRX-A fail with the server error. -/
theorem getTransactionById_deleted_product_server_error_witness :
    ∃ st1, deleteProductById wStoreTx "P1" = Except.ok (st1, wProduct1) ∧
      getTransactionById st1 wTrans.id = GetByIdResult.serverError ∧
      getTransactions st1 none = none :=
  getTransactionById_deleted_product_server_error wStoreTx "P1" wTrans
    wProduct1 wItem rfl rfl (List.mem_cons_self _ _) rfl rfl

end CafeApps
